import Mathlib

/-!
Formal verification of the bookshelf backend service layer.

This file gives a shallow embedding, in Lean, of the pure content of the
backend services of the book-tracking application: the reading lifecycle
service (`backend/services/reading_service.py`), the social follow graph
(`backend/services/user_service.py` and `backend/routers/social.py`), the
recommendation pipeline (`backend/routers/recommendations.py`), the book
search service (`backend/services/book_service.py`) and the id-folding
helper (`backend/utils.py`).

Modelling conventions:
* The database session is modelled as an explicit immutable state (lists of
  rows); a committed mutation returns a new state, a raised error returns
  `Except.error` and, matching the services' rollback-on-error handling,
  leaves the caller's state untouched.
* Python integers are `Int`, SQL floats are exact rationals (`Rat`), with
  the two-decimal rounding of `round(x, 2)` modelled as exact half-to-even
  rounding on rationals.
* `datetime.utcnow()` is an abstract tick passed as a `now : Nat` argument.
* External HTTP calls are abstracted into oracle arguments enumerating the
  branches the code distinguishes on the response.
* SQLAlchemy `scalar_one_or_none` returns an error on a multi-row result;
  that behaviour is kept (`scalar_one_or_none` below).
-/

namespace Bookshelf

/-! Python string and truthiness primitives used throughout the services. -/

/-- Characters stripped by Python `str.strip()` (ASCII fragment). -/
def pyWhitespace (c : Char) : Bool :=
  c = ' ' || c = '\t' || c = '\n' || c = '\r' || c = Char.ofNat 11 || c = Char.ofNat 12

/-- List-level model of Python `str.strip()`. -/
def pyStripList (l : List Char) : List Char :=
  ((l.dropWhile pyWhitespace).reverse.dropWhile pyWhitespace).reverse

/-- Python `str.strip()`. -/
def pyStrip (s : String) : String := ⟨pyStripList s.data⟩

/-- Python `str.lower()` (ASCII fragment, as in all string data involved),
mapping the lowercasing over the character list. -/
def pyLower (s : String) : String := ⟨s.data.map Char.toLower⟩

/-- Truthiness of a Python optional int: `None` and `0` are falsy. -/
def pyTruthyInt (o : Option Int) : Bool :=
  match o with
  | none => false
  | some n => n != 0

/-- Truthiness of a Python optional string: `None` and `""` are falsy. -/
def pyTruthyStr (o : Option String) : Bool :=
  match o with
  | none => false
  | some s => s != ""

/-- Round-half-to-even on rationals, as Python `round` does on a number it
represents exactly. -/
def roundHalfToEven (q : ℚ) : ℤ :=
  let f := q.floor
  let frac := q - (f : ℚ)
  if frac < 1 / 2 then f
  else if 1 / 2 < frac then f + 1
  else if f % 2 = 0 then f else f + 1

/-- Model of Python `round(x, 2)` on the exact rational value. -/
def pyRound2 (q : ℚ) : ℚ := (roundHalfToEven (q * 100) : ℚ) / 100

/-- Model of SQLAlchemy `Result.scalar_one_or_none`: `none` on an empty
result set, the row on a singleton, and an error (`MultipleResultsFound`)
otherwise. -/
def scalar_one_or_none {α : Type} (l : List α) : Except Unit (Option α) :=
  match l with
  | [] => .ok none
  | [a] => .ok (some a)
  | _ => .error ()

/-! Embedding of `backend/utils.py`: `convert_user_id`. -/

/-- Largest id SQLite stores natively, as in the source: `2**63 - 1`. -/
def max_sqlite_int : ℤ := 2 ^ 63 - 1

/-- Embedding of `convert_user_id` from `backend/utils.py`. -/
def convert_user_id (user_id : ℤ) : ℤ :=
  if user_id ≤ max_sqlite_int then user_id
  else user_id % 2 ^ 63

/-! Embedding of `BookService.search_open_library` and
`BookService._parse_open_library_doc` from `backend/services/book_service.py`. -/

/-- One raw document of the Open Library search response, restricted to the
fields the parser reads. -/
structure OpenLibraryDoc where
  key : Option String
  title : Option String
  author_name : Option (List String)
  isbn : Option (List String)
  cover_i : Option Int
  first_publish_year : Option Int
deriving DecidableEq, Repr

/-- Normalized search record produced by the book service (schema
`BookSearch`). -/
structure BookSearch where
  title : String
  author : String
  isbn : Option String
  cover_url : Option String
  publication_year : Option Int
  open_library_key : Option String
  description : Option String
deriving DecidableEq, Repr

/-- Query parameters of the outbound search request: the `q` and `limit`
values sent to the Open Library API. -/
structure SearchParams where
  q : String
  limit : ℤ
deriving DecidableEq, Repr

/-- Branches of the outbound HTTP call that the service distinguishes. -/
inductive HttpResult where
  | timeout
  | httpStatusError (code : Nat)
  | requestError (msg : String)
  | success (docs : List OpenLibraryDoc)
deriving DecidableEq, Repr

/-- Error type raised by the book service on external failures. -/
inductive ApiError where
  | externalAPIError (msg : String)
deriving DecidableEq, Repr

/-- Cover image URL built from a numeric cover id. -/
def coversUrl (coverId : Int) : String :=
  "https://covers.openlibrary.org/b/id/" ++ toString coverId ++ "-M.jpg"

/-- Embedding of `BookService._parse_open_library_doc`: documents without a
(non-blank) title are dropped; the first author and first ISBN are taken. -/
def parse_open_library_doc (doc : OpenLibraryDoc) : Option BookSearch :=
  let cover_url : Option String :=
    match doc.cover_i with
    | some cid => if cid != 0 then some (coversUrl cid) else none
    | none => none
  let author : String :=
    match doc.author_name with
    | some (a :: _) => a
    | _ => "Unknown Author"
  let isbn : Option String :=
    match doc.isbn with
    | some (i :: _) => some i
    | _ => none
  let title := pyStrip (doc.title.getD "")
  if title = "" then none
  else some {
    title := title
    author := author
    isbn := isbn
    cover_url := cover_url
    publication_year := doc.first_publish_year
    open_library_key := doc.key
    description := none }

/-- Embedding of `BookService.search_open_library`. The outbound call is an
oracle `http`; the first component of the result records the request that
was issued (`none` when no request went out). -/
def search_open_library (http : SearchParams → HttpResult) (query : String) (limit : ℤ) :
    Option SearchParams × Except ApiError (List BookSearch) :=
  if pyStrip query = "" then (none, .ok [])
  else
    let params : SearchParams := ⟨pyStrip query, min limit 50⟩
    match http params with
    | .timeout => (some params, .error (.externalAPIError "Open Library search timed out"))
    | .httpStatusError code =>
        (some params, .error (.externalAPIError ("Open Library API error: " ++ toString code)))
    | .requestError msg =>
        (some params, .error (.externalAPIError ("Open Library network error: " ++ msg)))
    | .success docs => (some params, .ok (docs.filterMap parse_open_library_doc))

/-! Theorems for claim C8. -/

/-- C8: for every non-negative integer OAuth user id, `convert_user_id`
returns the id unchanged when it is at most `2 ^ 63 - 1` and the id modulo
`2 ^ 63` otherwise, so every returned id lies in `[0, 2 ^ 63 - 1]`. -/
theorem convert_user_id_spec (user_id : ℤ) (h : 0 ≤ user_id) :
    (user_id ≤ max_sqlite_int → convert_user_id user_id = user_id) ∧
    (max_sqlite_int < user_id → convert_user_id user_id = user_id % 2 ^ 63) ∧
    0 ≤ convert_user_id user_id ∧ convert_user_id user_id ≤ max_sqlite_int := by
  unfold convert_user_id max_sqlite_int
  split
  · refine ⟨fun _ => rfl, fun hlt => absurd hlt (by omega), h, by omega⟩
  · rename_i hgt
    have hpos : (0 : ℤ) < 2 ^ 63 := by norm_num
    have h1 : 0 ≤ user_id % 2 ^ 63 := Int.emod_nonneg user_id (by norm_num)
    have h2 : user_id % 2 ^ 63 < 2 ^ 63 := Int.emod_lt_of_pos user_id hpos
    exact ⟨fun hle => absurd hle hgt, fun _ => rfl, h1, by omega⟩

/-- Witness for C8: evaluates `convert_user_id` through the theorem at an
in-range and an out-of-range id. -/
theorem convert_user_id_spec_witness :
    convert_user_id 5 = 5 ∧ convert_user_id (2 ^ 63 + 3) = (2 ^ 63 + 3) % 2 ^ 63 := by
  constructor
  · exact (convert_user_id_spec 5 (by norm_num)).1 (by norm_num [max_sqlite_int])
  · exact (convert_user_id_spec (2 ^ 63 + 3) (by norm_num)).2.1 (by norm_num [max_sqlite_int])

/-! Theorems for claim C10. -/

/-- C10: a query consisting only of whitespace (or empty) makes the external
book search return an empty list without issuing any HTTP request, and for
non-blank queries the `limit` sent to the external API is `min limit 50`,
hence at most 50. -/
theorem search_open_library_spec (http : SearchParams → HttpResult)
    (query : String) (limit : ℤ) :
    ((∀ c ∈ query.data, pyWhitespace c = true) →
      search_open_library http query limit = (none, .ok [])) ∧
    (pyStrip query ≠ "" →
      (search_open_library http query limit).1 = some ⟨pyStrip query, min limit 50⟩ ∧
      min limit 50 ≤ 50) := by
  constructor
  · intro hws
    have hstrip : pyStrip query = "" := by
      have h1 : query.data.dropWhile pyWhitespace = [] :=
        List.dropWhile_eq_nil_iff.mpr hws
      simp [pyStrip, pyStripList, h1]
    simp [search_open_library, hstrip]
  · intro hne
    unfold search_open_library
    rw [if_neg hne]
    refine ⟨?_, min_le_right _ _⟩
    cases h : http ⟨pyStrip query, min limit 50⟩ <;> simp [h]

/-- Witness for C10: a whitespace-only query issues no request and returns
no results; a padded query is stripped and an oversized limit is capped. -/
theorem search_open_library_spec_witness :
    search_open_library (fun _ => .success []) "   " 10 = (none, .ok []) ∧
    (search_open_library (fun _ => .success []) " dune " 99).1 =
      some ⟨"dune", (50 : ℤ)⟩ := by
  constructor
  · exact (search_open_library_spec (fun _ => .success []) "   " 10).1 (by decide)
  · have h := (search_open_library_spec (fun _ => .success []) " dune " 99).2 (by decide)
    rw [h.1]
    decide

/-! Embedding of the recommendation pipeline from
`backend/routers/recommendations.py`. -/

/-- A `(title, author)` entry of the user's library, as passed in
`user_books` to `get_ai_recommendations`. -/
structure LibraryBook where
  title : String
  author : String
deriving DecidableEq, Repr

/-- A validated recommendation item, the dict shape the pipeline returns. -/
structure RecItem where
  title : String
  author : String
  reason : String
  confidence : ℚ
  genre : String
deriving DecidableEq, Repr

/-- A raw item of the parsed JSON payload, before validation: any of the
keys may be missing. -/
structure RawRec where
  title : Option String
  author : Option String
  reason : Option String
  confidence : Option ℚ
  genre : Option String
deriving DecidableEq, Repr

/-- One entry of the reading history handed to `get_ai_recommendations`.
Only the emptiness of the history affects the returned value (the
preference profile it is serialized into feeds the abstracted external
call), so the entry keeps just the fields the profile builder reads. -/
structure HistoryEntry where
  title : String
  author : String
  genre : Option String
  rating : Option Int
deriving DecidableEq, Repr

/-- Branches of the external chat-completion call distinguished by the
code. An `ok200` response carries both parses of the (abstract) response
text: the result of the JSON parse attempt (`none` on `JSONDecodeError`,
otherwise the `recommendations` array) and the list scraped by the
line-oriented fallback `parse_text_recommendations` before its final
truncation. -/
inductive ApiOutcome where
  | failure
  | ok200 (jsonRecs : Option (List RawRec)) (textScrape : List RecItem)
deriving DecidableEq, Repr

/-- Validation loop over the parsed items (lines 233 to 242 of the router):
items missing title, author or reason are discarded, kept fields are
stripped, confidence defaults to 0.7 and genre to Fiction. -/
def validate_recommendations (recs : List RawRec) : List RecItem :=
  recs.filterMap fun r =>
    match r.title, r.author, r.reason with
    | some t, some a, some why =>
        some ⟨pyStrip t, pyStrip a, pyStrip why, r.confidence.getD (7 / 10),
          r.genre.getD "Fiction"⟩
    | _, _, _ => none

/-- Dedup key built by the router for a library book or a candidate: the
lowercased, stripped title and author joined by a vertical bar. -/
def bookCombo (title author : String) : String :=
  pyStrip (pyLower title) ++ "|" ++ pyStrip (pyLower author)

/-- Set of dedup keys of the user's library (modelled as the list of keys;
only membership is consumed). -/
def user_book_combos (user_books : List LibraryBook) : List String :=
  user_books.map fun b => bookCombo b.title b.author

/-- The post-filter of `get_ai_recommendations`: a candidate is dropped
exactly when its dedup key occurs among the library's dedup keys. -/
def filter_existing_books (user_books : List LibraryBook) (recs : List RecItem) :
    List RecItem :=
  let combos := user_book_combos user_books
  recs.filter fun r => !(combos.contains (bookCombo r.title r.author))

/-- The fixed built-in fallback list returned when the external model is
unavailable (`get_fallback_recommendations`). -/
def get_fallback_recommendations : List RecItem :=
  [⟨"The Seven Husbands of Evelyn Hugo", "Taylor Jenkins Reid",
    "A captivating story about a reclusive Hollywood icon that combines romance, mystery, and compelling character development.",
    3 / 4, "Contemporary Fiction"⟩,
   ⟨"Educated", "Tara Westover",
    "A powerful memoir about education, family, and self-discovery that has resonated with millions of readers.",
    4 / 5, "Memoir"⟩,
   ⟨"The Midnight Library", "Matt Haig",
    "A thought-provoking novel about life's infinite possibilities that blends philosophy with accessible storytelling.",
    39 / 50, "Literary Fiction"⟩]

/-- The fallback path taken after an API failure with a key configured
(lines 286 to 310): the fallback list is filtered against the library, and
the unfiltered list is returned when the filter leaves nothing. -/
def fallback_after_error (user_books : Option (List LibraryBook)) : List RecItem :=
  let fallback_recs := get_fallback_recommendations
  match user_books with
  | some ub =>
      if ub.isEmpty then fallback_recs
      else
        let filtered := filter_existing_books ub fallback_recs
        if filtered.isEmpty then fallback_recs else filtered
  | none => fallback_recs

/-- Embedding of `get_ai_recommendations`. The api key, reading history,
library and requested count are as in the source; the outbound call and the
parsing of its textual payload are the `outcome` oracle. -/
def get_ai_recommendations (apiKey : Option String) (history : List HistoryEntry)
    (user_books : Option (List LibraryBook)) (num : Nat) (outcome : ApiOutcome) :
    List RecItem :=
  if pyTruthyStr apiKey = false then get_fallback_recommendations
  else if history.isEmpty then get_fallback_recommendations
  else
    match outcome with
    | .failure => fallback_after_error user_books
    | .ok200 none textScrape => textScrape.take num
    | .ok200 (some recs) textScrape =>
        let valid := validate_recommendations recs
        if valid.isEmpty then textScrape.take num
        else
          let filtered :=
            match user_books with
            | some ub => if ub.isEmpty then valid else filter_existing_books ub valid
            | none => valid
          if filtered.isEmpty then textScrape.take num
          else filtered.take num

/-- Splitting a character list at a marker character absent from both
prefixes is unambiguous. -/
theorem append_marker_inj {c : Char} {l1 r1 l2 r2 : List Char}
    (h1 : c ∉ l1) (h2 : c ∉ l2)
    (h : l1 ++ c :: r1 = l2 ++ c :: r2) : l1 = l2 ∧ r1 = r2 := by
  induction l1 generalizing l2 with
  | nil =>
    cases l2 with
    | nil => simpa using h
    | cons x xs =>
      simp only [List.nil_append, List.cons_append, List.cons.injEq] at h
      exact absurd (h.1 ▸ List.mem_cons_self x xs) h2
  | cons x xs ih =>
    cases l2 with
    | nil =>
      simp only [List.nil_append, List.cons_append, List.cons.injEq] at h
      exact absurd (h.1.symm ▸ List.mem_cons_self x xs) h1
    | cons y ys =>
      simp only [List.cons_append, List.cons.injEq] at h
      have hx := ih (fun hm => h1 (List.mem_cons_of_mem x hm))
        (fun hm => h2 (List.mem_cons_of_mem y hm)) h.2
      exact ⟨by rw [h.1, hx.1], hx.2⟩

/-- A dedup key determines the (title, author) pair as soon as neither
title contains the joining bar. -/
theorem combo_eq_iff {x y x2 y2 : String}
    (h1 : '|' ∉ x.data) (h2 : '|' ∉ x2.data) :
    x ++ "|" ++ y = x2 ++ "|" ++ y2 ↔ x = x2 ∧ y = y2 := by
  constructor
  · intro h
    have hd : x.data ++ '|' :: y.data = x2.data ++ '|' :: y2.data := by
      have := congrArg String.data h
      simpa [String.data_append] using this
    have := append_marker_inj h1 h2 hd
    exact ⟨String.ext this.1, String.ext this.2⟩
  · rintro ⟨rfl, rfl⟩
    rfl

/-! Theorems for claim C2. -/

/-- Counterexample to C2: with no API key configured, the pipeline returns
the fixed fallback list without any library filtering. With a library that
already holds Educated by Tara Westover, the returned list still contains a
candidate whose lowercased (title, author) pair occurs in the library,
contradicting the claimed exclusion. -/
theorem no_key_fallback_is_unfiltered :
    get_ai_recommendations none [⟨"Dune", "Frank Herbert", none, some 5⟩]
        (some [⟨"Educated", "Tara Westover"⟩]) 5 .failure =
      get_fallback_recommendations ∧
    (get_ai_recommendations none [⟨"Dune", "Frank Herbert", none, some 5⟩]
        (some [⟨"Educated", "Tara Westover"⟩]) 5 .failure).any
      (fun r => (user_book_combos [⟨"Educated", "Tara Westover"⟩]).contains
        (bookCombo r.title r.author)) = true := by
  exact ⟨rfl, by decide⟩

/-- C2 amended: when no external API key is configured (the key is missing
or empty), recommendation generation returns exactly the fixed built-in
3-item fallback list, unfiltered; the dedup against the user's library is
not applied on this path. -/
theorem get_ai_recommendations_no_key (apiKey : Option String)
    (history : List HistoryEntry) (user_books : Option (List LibraryBook))
    (num : Nat) (outcome : ApiOutcome) (h : pyTruthyStr apiKey = false) :
    get_ai_recommendations apiKey history user_books num outcome =
      get_fallback_recommendations := by
  simp [get_ai_recommendations, h]

/-- Witness for the amended C2 at the counterexample's own input. -/
theorem get_ai_recommendations_no_key_witness :
    get_ai_recommendations none [⟨"Dune", "Frank Herbert", none, some 5⟩]
        (some [⟨"Educated", "Tara Westover"⟩]) 5 .failure =
      get_fallback_recommendations :=
  get_ai_recommendations_no_key none [⟨"Dune", "Frank Herbert", none, some 5⟩]
    (some [⟨"Educated", "Tara Westover"⟩]) 5 .failure rfl

/-! Theorems for claim C3. -/

/-- Counterexample to C3: the dedup key joins title and author with a bar,
so a library title containing a bar collides with a differently split
candidate. The candidate (a, b-bar-c) is excluded by the filter against the
library book (a-bar-b, c) although their lowercased, stripped (title,
author) pairs differ, refuting the claimed "only if" direction. -/
theorem filter_pipe_collision :
    filter_existing_books [⟨"a|b", "c"⟩] [⟨"a", "b|c", "why", 7 / 10, "Fiction"⟩] = [] ∧
    ([(⟨"a|b", "c"⟩ : LibraryBook)].all fun b =>
      !(pyStrip (pyLower b.title) == pyStrip (pyLower "a") &&
        pyStrip (pyLower b.author) == pyStrip (pyLower "b|c"))) = true := by
  exact ⟨by decide, by decide⟩

/-- C3 amended: the post-filter excludes a candidate exactly when its dedup
key (lowercased, stripped title and author joined by a bar) occurs among
the library's dedup keys; when no involved title contains a bar this
coincides with exact lowercased, stripped (title, author) pair matching, so
in particular a candidate sharing only the title with a library book is
retained. -/
theorem filter_existing_books_spec (user_books : List LibraryBook)
    (recs : List RecItem) (r : RecItem) (hr : r ∈ recs)
    (hp : '|' ∉ (pyStrip (pyLower r.title)).data)
    (hb : ∀ b ∈ user_books, '|' ∉ (pyStrip (pyLower b.title)).data) :
    (r ∈ filter_existing_books user_books recs ↔
      bookCombo r.title r.author ∉ user_book_combos user_books) ∧
    (r ∈ filter_existing_books user_books recs ↔
      ¬ ∃ b ∈ user_books,
        pyStrip (pyLower b.title) = pyStrip (pyLower r.title) ∧
        pyStrip (pyLower b.author) = pyStrip (pyLower r.author)) := by
  have hmem : r ∈ filter_existing_books user_books recs ↔
      bookCombo r.title r.author ∉ user_book_combos user_books := by
    simp [filter_existing_books, List.mem_filter, hr]
  refine ⟨hmem, hmem.trans ?_⟩
  constructor
  · intro hnotin hex
    rcases hex with ⟨b, hbmem, ht, ha⟩
    refine hnotin ?_
    simp only [user_book_combos, List.mem_map]
    exact ⟨b, hbmem, by simp [bookCombo, ht, ha]⟩
  · intro hnoex hin
    simp only [user_book_combos, List.mem_map] at hin
    rcases hin with ⟨b, hbmem, hcombo⟩
    have := (combo_eq_iff (hb b hbmem) hp).mp hcombo
    exact hnoex ⟨b, hbmem, this.1, this.2⟩

/-- Witness for the amended C3: a candidate sharing only the title with a
library book is retained by the post-filter. -/
theorem filter_existing_books_spec_witness :
    (⟨"Dune", "Kevin J. Anderson", "why", 7 / 10, "Science Fiction"⟩ : RecItem) ∈
      filter_existing_books [⟨"Dune", "Frank Herbert"⟩]
        [⟨"Dune", "Kevin J. Anderson", "why", 7 / 10, "Science Fiction"⟩] :=
  (filter_existing_books_spec [⟨"Dune", "Frank Herbert"⟩]
    [⟨"Dune", "Kevin J. Anderson", "why", 7 / 10, "Science Fiction"⟩]
    ⟨"Dune", "Kevin J. Anderson", "why", 7 / 10, "Science Fiction"⟩
    (List.mem_singleton_self _) (by decide) (by decide)).2.mpr (by decide)

/-! Embedding of the reading lifecycle service
(`backend/services/reading_service.py`) over the relational rows of
`backend/models.py`. Columns not read or written by the embedded
operations (isbn, cover urls, descriptions, created_at, genre) are
omitted; `datetime` truthiness is `Option.isSome` since datetime values
are never falsy in Python. -/

/-- Reading lifecycle status (schema `ReadingStatus`). -/
inductive ReadingStatus where
  | want_to_read
  | currently_reading
  | finished
deriving DecidableEq, Repr

/-- A row of the `books` table, restricted to the columns the reading
service reads or writes. -/
structure Book where
  id : Int
  title : String
  author : String
  total_pages : Option Int
  average_rating : ℚ
  total_ratings : Int
deriving DecidableEq, Repr

/-- A row of the `readings` table. Timestamps are abstract ticks. -/
structure Reading where
  id : Int
  user_id : Int
  book_id : Int
  status : ReadingStatus
  rating : Option Int
  review : Option String
  is_review_public : Option Bool
  progress_pages : Option Int
  total_pages : Option Int
  started_at : Option Nat
  finished_at : Option Nat
  updated_at : Nat
deriving DecidableEq, Repr

/-- A row of the `user_activities` table; the freeform JSON payload is
abstracted away since nothing in the embedded operations reads it back. -/
structure UserActivity where
  user_id : Int
  activity_type : String
deriving DecidableEq, Repr

/-- Database state visible to the reading service. -/
structure ReadingDB where
  books : List Book
  readings : List Reading
  activities : List UserActivity
deriving DecidableEq, Repr

/-- Error taxonomy of the service layer (`backend/error_handlers.py`). -/
inductive ServiceError where
  | validation (msg : String)
  | database (msg : String)
deriving DecidableEq, Repr

/-- Payload of `ReadingCreate` (schema): `book_id` plus the base fields. -/
structure ReadingCreate where
  book_id : Int
  status : ReadingStatus
  rating : Option Int
  review : Option String
  is_review_public : Option Bool
  progress_pages : Option Int
  total_pages : Option Int
deriving DecidableEq, Repr

/-- Payload of `ReadingUpdate` (schema): every field optional. The outer
`Option` is presence in the request (pydantic `exclude_unset`), the inner
one the transmitted value, which may itself be null. -/
structure ReadingUpdate where
  status : Option (Option ReadingStatus)
  rating : Option (Option Int)
  review : Option (Option String)
  is_review_public : Option (Option Bool)
  progress_pages : Option (Option Int)
  total_pages : Option (Option Int)
deriving DecidableEq, Repr

/-- The empty patch. -/
def ReadingUpdate.unset : ReadingUpdate := ⟨none, none, none, none, none, none⟩

/-- Readings of a book carrying a non-null rating, the rows the rating
aggregate of `update_book_rating` ranges over. -/
def ratedReadings (db : ReadingDB) (book_id : Int) : List Reading :=
  db.readings.filter fun r => r.book_id == book_id && r.rating.isSome

/-- The `count(Reading.rating)` leg of the aggregate. -/
def ratedCount (db : ReadingDB) (book_id : Int) : Nat :=
  (ratedReadings db book_id).length

/-- Sum of the non-null ratings of a book. -/
def ratingSum (db : ReadingDB) (book_id : Int) : Int :=
  ((ratedReadings db book_id).map fun r => r.rating.getD 0).foldr (· + ·) 0

/-- The `avg(Reading.rating)` leg of the aggregate, as an exact rational. -/
def ratingAvg (db : ReadingDB) (book_id : Int) : ℚ :=
  (ratingSum db book_id : ℚ) / (ratedCount db book_id : ℚ)

/-- Fault oracle for the two database calls inside
`ReadingService.update_book_rating`. -/
inductive UbrFault where
  | noFault
  | aggQueryFails
  | bookQueryFails
deriving DecidableEq, Repr

/-- The book row map applied by a successful recompute: the row with the
target id receives the rounded average and the count. -/
def rated_books_map (db : ReadingDB) (bid : Int) : List Book :=
  db.books.map fun b =>
    if b.id == bid then
      { b with
        average_rating := pyRound2 (ratingAvg db bid)
        total_ratings := (ratedCount db bid : Int) }
    else b

/-- Body of the `try` block of `ReadingService.update_book_rating`: the
aggregate over the rated readings and, when at least one rating exists, the
in-place update of the owning book row. An error stands for a database
exception at the corresponding call. -/
def update_book_rating_attempt (fault : UbrFault) (db : ReadingDB) (book_id : Int) :
    Except String ReadingDB :=
  if fault = .aggQueryFails then .error "database failure during rating aggregate"
  else
    let total := ratedCount db book_id
    if 0 < total then
      if fault = .bookQueryFails then .error "database failure during book lookup"
      else
        match scalar_one_or_none (db.books.filter fun b => b.id == book_id) with
        | .error _ => .error "multiple books share one id"
        | .ok none => .ok db
        | .ok (some _) => .ok { db with books := rated_books_map db book_id }
    else .ok db

/-- Embedding of `ReadingService.update_book_rating` with its fault oracle:
the surrounding `except` swallows every exception, leaving the state
untouched, so the operation is total. -/
def update_book_rating_faulted (fault : UbrFault) (db : ReadingDB) (book_id : Int) :
    ReadingDB :=
  match update_book_rating_attempt fault db book_id with
  | .ok db2 => db2
  | .error _ => db

/-- Embedding of `ReadingService.update_book_rating` on the fault-free
path, the form the other service operations invoke. -/
def update_book_rating (db : ReadingDB) (book_id : Int) : ReadingDB :=
  update_book_rating_faulted .noFault db book_id

/-- Primary key for a freshly inserted reading row. -/
def freshReadingId (db : ReadingDB) : Int :=
  (db.readings.map Reading.id).foldr max 0 + 1

/-- Embedding of `ReadingService._create_reading_activities`: activity rows
recorded at creation, based on the initial state. -/
def create_reading_activities (reading : Reading) (user_id : Int) : List UserActivity :=
  if reading.status = .finished then
    ⟨user_id, "finished_book"⟩ ::
      ((if pyTruthyInt reading.rating then [⟨user_id, "rated_book"⟩] else []) ++
        (if pyTruthyStr reading.review then [⟨user_id, "reviewed_book"⟩] else []))
  else []

/-- The reading row built by `create_reading` after its guards pass:
timestamps follow the initial status and `total_pages` is inherited from
the book when the payload brings none. -/
def new_reading (data : ReadingCreate) (book : Book) (user_id : Int) (now : Nat)
    (db : ReadingDB) : Reading :=
  let started_at : Option Nat :=
    if data.status = .currently_reading then some now
    else if data.status = .finished then some now
    else none
  let finished_at : Option Nat :=
    if data.status = .finished then some now else none
  let total_pages : Option Int :=
    if pyTruthyInt data.total_pages = false && pyTruthyInt book.total_pages then
      book.total_pages
    else data.total_pages
  { id := freshReadingId db
    user_id := user_id
    book_id := data.book_id
    status := data.status
    rating := data.rating
    review := data.review
    is_review_public := data.is_review_public
    progress_pages := data.progress_pages
    total_pages := total_pages
    started_at := started_at
    finished_at := finished_at
    updated_at := now }

/-- Committed effect of `create_reading` after its guards pass: the new
row and its activities are inserted and, when a truthy rating came with the
payload, the book aggregate is recomputed. -/
def create_reading_commit (data : ReadingCreate) (book : Book) (user_id : Int)
    (now : Nat) (db : ReadingDB) : ReadingDB × Reading :=
  let reading := new_reading data book user_id now db
  let db1 : ReadingDB := { db with
    readings := db.readings ++ [reading]
    activities := db.activities ++ create_reading_activities reading user_id }
  let db2 := if pyTruthyInt data.rating then update_book_rating db1 book.id else db1
  (db2, reading)

/-- Embedding of `ReadingService.create_reading`. An error return models
the raise-and-rollback path, which leaves the caller's state untouched. -/
def create_reading (data : ReadingCreate) (user_id : Int) (now : Nat) (db : ReadingDB) :
    Except ServiceError (ReadingDB × Reading) :=
  match scalar_one_or_none (db.books.filter fun b => b.id == data.book_id) with
  | .error _ => .error (.database "Failed to create reading")
  | .ok none => .error (.validation "Book not found")
  | .ok (some book) =>
    match scalar_one_or_none (db.readings.filter fun r =>
        r.user_id == user_id && r.book_id == data.book_id) with
    | .error _ => .error (.database "Failed to fetch reading")
    | .ok (some _) => .error (.validation "Reading entry already exists for this book")
    | .ok none => .ok (create_reading_commit data book user_id now db)

/-- Embedding of `ReadingService._handle_status_changes`: timestamp and
progress side effects applied whenever an update patch carries a status. -/
def handle_status_changes (r : Reading) (new_status : ReadingStatus) (now : Nat) :
    Reading :=
  if new_status = .currently_reading ∧ r.started_at = none then
    { r with started_at := some now }
  else if new_status = .finished then
    let r1 := if r.started_at = none then { r with started_at := some now } else r
    let r2 := { r1 with finished_at := some now }
    if pyTruthyInt r2.total_pages then { r2 with progress_pages := r2.total_pages } else r2
  else r

/-- Field application of an update patch (the `exclude_unset` loop of
`update_reading`). -/
def apply_reading_update (r : Reading) (u : ReadingUpdate) : Reading :=
  { r with
    status := match u.status with | some (some s) => s | _ => r.status
    rating := match u.rating with | some v => v | none => r.rating
    review := match u.review with | some v => v | none => r.review
    is_review_public :=
      match u.is_review_public with | some v => v | none => r.is_review_public
    progress_pages :=
      match u.progress_pages with | some v => v | none => r.progress_pages
    total_pages := match u.total_pages with | some v => v | none => r.total_pages }

/-- Embedding of `ReadingService._create_update_activities`: diff-based
activity emission against the values stored before the patch. -/
def create_update_activities (r : Reading) (user_id : Int) (old_status : ReadingStatus)
    (old_rating : Option Int) (old_review : Option String) : List UserActivity :=
  (if old_status ≠ .finished ∧ r.status = .finished then
      [(⟨user_id, "finished_book"⟩ : UserActivity)] else []) ++
  (if r.rating.isSome ∧ old_rating ≠ r.rating then
      [(⟨user_id, "rated_book"⟩ : UserActivity)] else []) ++
  (if r.review.isSome ∧ old_review ≠ r.review ∧ pyTruthyStr r.review then
      [(⟨user_id, "reviewed_book"⟩ : UserActivity)] else [])

/-- The reading row produced by `update_reading` after its guards pass:
the patch is applied field by field, then the status handler runs whenever
the patch carries a status, then `updated_at` is stamped. -/
def updated_reading (r0 : Reading) (u : ReadingUpdate) (now : Nat) : Reading :=
  let r1 := apply_reading_update r0 u
  let r2 :=
    match u.status with
    | some (some s) => handle_status_changes r1 s now
    | _ => r1
  { r2 with updated_at := now }

/-- Committed effect of `update_reading` after its guards pass: the row is
replaced, diff-based activities are appended and, when the patch carried a
non-null rating, the book aggregate is recomputed. -/
def update_reading_commit (reading_id : Int) (u : ReadingUpdate) (user_id : Int)
    (now : Nat) (db : ReadingDB) (r0 : Reading) : ReadingDB × Reading :=
  let r3 := updated_reading r0 u now
  let db1 : ReadingDB := { db with
    readings := db.readings.map fun r => if r.id == reading_id then r3 else r
    activities := db.activities ++
      create_update_activities r3 user_id r0.status r0.rating r0.review }
  let db2 :=
    match u.rating with
    | some (some _) => update_book_rating db1 r3.book_id
    | _ => db1
  (db2, r3)

/-- Embedding of `ReadingService.update_reading`. A patch carrying an
explicit null status violates the NOT NULL column constraint at commit,
which the generic handler converts to a database error after rollback. -/
def update_reading (reading_id : Int) (u : ReadingUpdate) (user_id : Int) (now : Nat)
    (db : ReadingDB) : Except ServiceError (ReadingDB × Reading) :=
  match scalar_one_or_none (db.readings.filter fun r => r.id == reading_id) with
  | .error _ => .error (.database "Failed to fetch reading")
  | .ok none => .error (.validation "Reading not found")
  | .ok (some r0) =>
    if r0.user_id ≠ user_id then .error (.validation "Not authorized to update this reading")
    else if u.status = some none then
      .error (.database "Failed to update reading: NOT NULL constraint failed")
    else .ok (update_reading_commit reading_id u user_id now db r0)

/-- Committed effect of `delete_reading` after its guards pass: the row is
removed, then the book aggregate is recomputed from the captured book id. -/
def delete_reading_commit (reading_id : Int) (db : ReadingDB) (book_id : Int) :
    ReadingDB :=
  let db1 : ReadingDB := { db with
    readings := db.readings.filter fun r => !(r.id == reading_id) }
  update_book_rating db1 book_id

/-- Embedding of `ReadingService.delete_reading`: the row is removed, then
the owning book's aggregate is recomputed from the book id captured before
deletion. -/
def delete_reading (reading_id : Int) (user_id : Int) (db : ReadingDB) :
    Except ServiceError ReadingDB :=
  match scalar_one_or_none (db.readings.filter fun r => r.id == reading_id) with
  | .error _ => .error (.database "Failed to fetch reading")
  | .ok none => .error (.validation "Reading not found")
  | .ok (some r0) =>
    if r0.user_id ≠ user_id then .error (.validation "Not authorized to delete this reading")
    else .ok (delete_reading_commit reading_id db r0.book_id)

/-- The three mutating reading operations, packaged for invariant
statements ranging over all of them. -/
inductive ReadingOp where
  | create (data : ReadingCreate) (user_id : Int) (now : Nat)
  | update (reading_id : Int) (u : ReadingUpdate) (user_id : Int) (now : Nat)
  | delete (reading_id : Int) (user_id : Int)

/-- State transition of one reading operation. -/
def apply_reading_op (op : ReadingOp) (db : ReadingDB) : Except ServiceError ReadingDB :=
  match op with
  | .create data uid now => (create_reading data uid now db).map Prod.fst
  | .update rid u uid now => (update_reading rid u uid now db).map Prod.fst
  | .delete rid uid => delete_reading rid uid db

/-- The book whose aggregate an operation recomputes, if any: delete always
recomputes, create only when a truthy rating was supplied, update only when
the patch carries a non-null rating. -/
def recompute_target (op : ReadingOp) (db : ReadingDB) : Option Int :=
  match op with
  | .create data _ _ => if pyTruthyInt data.rating then some data.book_id else none
  | .update rid u _ _ =>
      match u.rating with
      | some (some _) => (db.readings.find? fun r => r.id == rid).map Reading.book_id
      | _ => none
  | .delete rid _ => (db.readings.find? fun r => r.id == rid).map Reading.book_id

/-- Statement that a book row carries exactly the aggregate of the rated
readings in the given state, with the two-decimal rounding the code
applies. -/
def aggregates_correct (db : ReadingDB) (book_id : Int) : Prop :=
  ∀ b ∈ db.books, b.id = book_id →
    b.total_ratings = (ratedCount db book_id : Int) ∧
    b.average_rating = pyRound2 (ratingAvg db book_id)

/-! Structural lemmas about the embedded lookups and the rating recompute,
shared by the claim theorems below. -/

/-- A successful single-row lookup pins the filtered row set down to that
one row. -/
theorem scalar_ok_some {α : Type} {l : List α} {a : α}
    (h : scalar_one_or_none l = .ok (some a)) : l = [a] := by
  match l with
  | [] => simp [scalar_one_or_none] at h
  | [x] => simpa [scalar_one_or_none] using h
  | x :: y :: rest => simp [scalar_one_or_none] at h

/-- An empty single-row lookup means no row matched. -/
theorem scalar_ok_none {α : Type} {l : List α}
    (h : scalar_one_or_none l = .ok none) : l = [] := by
  match l with
  | [] => rfl
  | [x] => simp [scalar_one_or_none] at h
  | x :: y :: rest => simp [scalar_one_or_none] at h

/-- When the filter keeps exactly one row, `find?` returns that row. -/
theorem find?_of_filter_singleton {α : Type} {p : α → Bool} {l : List α} {a : α}
    (h : l.filter p = [a]) : l.find? p = some a := by
  induction l with
  | nil => simp at h
  | cons x xs ih =>
    by_cases hx : p x
    · rw [List.filter_cons_of_pos hx] at h
      rw [List.cons.injEq] at h
      rw [List.find?_cons_of_pos _ hx, h.1]
    · rw [List.filter_cons_of_neg (by simpa using hx)] at h
      rw [List.find?_cons_of_neg _ (by simpa using hx)]
      exact ih h

/-- With duplicate-free book ids, a filter on one id keeps at most one
row. -/
theorem filter_id_nil_or_singleton (books : List Book) (bid : Int)
    (hnd : (books.map Book.id).Nodup) :
    books.filter (fun b => b.id == bid) = [] ∨
    ∃ b0, books.filter (fun b => b.id == bid) = [b0] := by
  match hl : books.filter (fun b => b.id == bid) with
  | [] => exact Or.inl hl
  | [x] => exact Or.inr ⟨x, hl⟩
  | x :: y :: rest =>
    exfalso
    have hsub : List.Sublist ((x :: y :: rest).map Book.id) (books.map Book.id) := by
      rw [← hl]
      exact (List.filter_sublist books).map Book.id
    have hnd2 : ((x :: y :: rest).map Book.id).Nodup := hnd.sublist hsub
    have hx : x.id = bid := by
      have := List.mem_filter.mp (hl ▸ List.mem_cons_self x (y :: rest))
      simpa using this.2
    have hy : y.id = bid := by
      have := List.mem_filter.mp
        (hl ▸ List.mem_cons_of_mem x (List.mem_cons_self y rest))
      simpa using this.2
    rw [List.map_cons, List.map_cons, List.nodup_cons] at hnd2
    exact hnd2.1 (by rw [hx, ← hy]; exact List.mem_cons_self _ _)

/-- Exhaustive description of the fault-free recompute: it either leaves
the state untouched (no rated reading, no matching book row, or an
ambiguous book lookup) or stores the aggregate on the matching book row. -/
theorem update_book_rating_cases (db : ReadingDB) (bid : Int) :
    ((ratedCount db bid = 0 ∨
        (∀ b0, db.books.filter (fun b => b.id == bid) ≠ [b0])) ∧
      update_book_rating db bid = db) ∨
    (0 < ratedCount db bid ∧
      (∃ b0, db.books.filter (fun b => b.id == bid) = [b0]) ∧
      update_book_rating db bid = { db with books := rated_books_map db bid }) := by
  unfold update_book_rating update_book_rating_faulted update_book_rating_attempt
  rw [if_neg (by simp : ¬(UbrFault.noFault = UbrFault.aggQueryFails))]
  by_cases h0 : 0 < ratedCount db bid
  · rw [if_pos h0, if_neg (by simp : ¬(UbrFault.noFault = UbrFault.bookQueryFails))]
    match hl : db.books.filter fun b => b.id == bid with
    | [] =>
      refine Or.inl ⟨Or.inr fun b0 hb0 => by rw [hl] at hb0; exact List.noConfusion hb0, ?_⟩
      rw [hl]
      rfl
    | [x] =>
      refine Or.inr ⟨h0, ⟨x, hl⟩, ?_⟩
      rw [hl]
      rfl
    | x :: y :: rest =>
      refine Or.inl ⟨Or.inr fun b0 hb0 => by rw [hl] at hb0; simp at hb0, ?_⟩
      rw [hl]
      rfl
  · have hz : ratedCount db bid = 0 := by omega
    refine Or.inl ⟨Or.inl hz, ?_⟩
    rw [if_neg h0]

/-- The fault-free rating recompute touches only the book rows. -/
theorem update_book_rating_frame (db : ReadingDB) (bid : Int) :
    (update_book_rating db bid).readings = db.readings ∧
    (update_book_rating db bid).activities = db.activities := by
  rcases update_book_rating_cases db bid with ⟨_, he⟩ | ⟨_, _, he⟩ <;> rw [he] <;>
    exact ⟨rfl, rfl⟩

/-- With no rated reading left, the recompute is skipped entirely. -/
theorem update_book_rating_of_count_zero (db : ReadingDB) (bid : Int)
    (h0 : ratedCount db bid = 0) : update_book_rating db bid = db := by
  rcases update_book_rating_cases db bid with ⟨_, he⟩ | ⟨hpos, _, _⟩
  · exact he
  · omega

/-- With at least one rated reading and duplicate-free book ids, the
recompute stores the rounded average and the count on every book row with
the target id. -/
theorem update_book_rating_correct (db : ReadingDB) (bid : Int)
    (hnd : (db.books.map Book.id).Nodup) (h0 : 0 < ratedCount db bid) :
    ∀ b ∈ (update_book_rating db bid).books, b.id = bid →
      b.total_ratings = (ratedCount db bid : Int) ∧
      b.average_rating = pyRound2 (ratingAvg db bid) := by
  rcases update_book_rating_cases db bid with ⟨hcase, he⟩ | ⟨_, _, he⟩
  · rcases hcase with hz | hnos
    · omega
    · intro b hb hbid
      exfalso
      rcases filter_id_nil_or_singleton db.books bid hnd with hnil | ⟨b0, hb0⟩
      · have : b ∈ db.books.filter fun x => x.id == bid :=
          List.mem_filter.mpr ⟨by rw [he] at hb; exact hb, by simpa using hbid⟩
        rw [hnil] at this
        simp at this
      · exact hnos b0 hb0
  · rw [he]
    intro b hb hbid
    rcases List.mem_map.mp hb with ⟨a, _, hab⟩
    by_cases hid : a.id == bid
    · rw [if_pos hid] at hab
      subst hab
      exact ⟨rfl, rfl⟩
    · rw [if_neg hid] at hab
      subst hab
      exact absurd hbid (by simpa using hid)

/-! Theorems for claim C9. -/

/-- C9: the book-rating recompute never raises to its caller. Its embedding
is a total function into plain states (not an error monad): whichever of
its two database calls fails, the caught exception leaves every row
unchanged; and when no rated reading exists, the book rows are likewise
left untouched. -/
theorem update_book_rating_never_raises (fault : UbrFault) (db : ReadingDB)
    (book_id : Int) :
    (fault ≠ .noFault → update_book_rating_faulted fault db book_id = db) ∧
    (ratedCount db book_id = 0 → update_book_rating_faulted fault db book_id = db) := by
  constructor
  · intro h
    cases fault with
    | noFault => exact absurd rfl h
    | aggQueryFails => rfl
    | bookQueryFails =>
      unfold update_book_rating_faulted update_book_rating_attempt
      rw [if_neg (by simp : ¬(UbrFault.bookQueryFails = UbrFault.aggQueryFails))]
      by_cases h0 : 0 < ratedCount db book_id
      · rw [if_pos h0, if_pos rfl]
      · rw [if_neg h0]
  · intro h0
    cases fault with
    | noFault => exact update_book_rating_of_count_zero db book_id h0
    | aggQueryFails => rfl
    | bookQueryFails =>
      unfold update_book_rating_faulted update_book_rating_attempt
      rw [if_neg (by simp : ¬(UbrFault.bookQueryFails = UbrFault.aggQueryFails)),
        if_neg (by omega : ¬(0 < ratedCount db book_id))]

/-- Witness for C9 at a concrete state: a failing aggregate query and a
failing book lookup both leave the database untouched, as does the
recompute over a book with no rated readings. -/
theorem update_book_rating_never_raises_witness :
    update_book_rating_faulted .aggQueryFails
      ⟨[⟨1, "Dune", "Frank Herbert", some 100, 5, 1⟩], [], []⟩ 1 =
      ⟨[⟨1, "Dune", "Frank Herbert", some 100, 5, 1⟩], [], []⟩ ∧
    update_book_rating_faulted .noFault
      ⟨[⟨1, "Dune", "Frank Herbert", some 100, 5, 1⟩], [], []⟩ 1 =
      ⟨[⟨1, "Dune", "Frank Herbert", some 100, 5, 1⟩], [], []⟩ := by
  constructor
  · exact (update_book_rating_never_raises .aggQueryFails
      ⟨[⟨1, "Dune", "Frank Herbert", some 100, 5, 1⟩], [], []⟩ 1).1 (by decide)
  · exact (update_book_rating_never_raises .noFault
      ⟨[⟨1, "Dune", "Frank Herbert", some 100, 5, 1⟩], [], []⟩ 1).2 (by decide)

/-! Theorems for claim C6. -/

/-- C6: creating a reading for a (user, book) pair that already has one
fails with the duplicate validation error; the raise-and-rollback path
returns no new state, so the existing reading row is left unchanged and is
never overwritten. -/
theorem create_reading_duplicate_rejected (data : ReadingCreate) (uid : Int)
    (now : Nat) (db : ReadingDB) (b : Book) (r0 : Reading)
    (hb : scalar_one_or_none (db.books.filter fun x => x.id == data.book_id) =
      .ok (some b))
    (hr : scalar_one_or_none (db.readings.filter fun x =>
      x.user_id == uid && x.book_id == data.book_id) = .ok (some r0)) :
    create_reading data uid now db =
      .error (.validation "Reading entry already exists for this book") := by
  unfold create_reading
  rw [hb, hr]


/-- Witness for C6: the duplicate guard fires on a concrete state holding
one reading for the pair. -/
theorem create_reading_duplicate_rejected_witness :
    create_reading ⟨1, .finished, some 4, none, some true, some 0, none⟩ 1 9
      ⟨[⟨1, "Dune", "Frank Herbert", some 100, 5, 1⟩],
       [⟨1, 1, 1, .finished, some 5, none, some true, some 0, some 100, some 3,
         some 4, 4⟩], []⟩ =
      .error (.validation "Reading entry already exists for this book") :=
  create_reading_duplicate_rejected ⟨1, .finished, some 4, none, some true, some 0, none⟩
    1 9 ⟨[⟨1, "Dune", "Frank Herbert", some 100, 5, 1⟩],
      [⟨1, 1, 1, .finished, some 5, none, some true, some 0, some 100, some 3,
        some 4, 4⟩], []⟩
    ⟨1, "Dune", "Frank Herbert", some 100, 5, 1⟩
    ⟨1, 1, 1, .finished, some 5, none, some true, some 0, some 100, some 3, some 4, 4⟩
    rfl rfl

/-- A book row returned by the id lookup carries the looked-up id. -/
theorem scalar_filter_book_id {books : List Book} {bid : Int} {b : Book}
    (h : scalar_one_or_none (books.filter fun x => x.id == bid) = .ok (some b)) :
    b.id = bid := by
  have hl := scalar_ok_some h
  have hb : b ∈ books.filter fun x => x.id == bid := hl ▸ List.mem_singleton_self b
  simpa using (List.mem_filter.mp hb).2

/-- Inversion of a successful reading creation: the book lookup succeeded,
the duplicate guard found nothing, and the result is the committed new
row. -/
theorem create_reading_ok_inv {data : ReadingCreate} {uid : Int} {now : Nat}
    {db : ReadingDB} {p : ReadingDB × Reading}
    (h : create_reading data uid now db = .ok p) :
    ∃ book,
      scalar_one_or_none (db.books.filter fun b => b.id == data.book_id) =
        .ok (some book) ∧
      scalar_one_or_none (db.readings.filter fun r =>
        r.user_id == uid && r.book_id == data.book_id) = .ok none ∧
      p = create_reading_commit data book uid now db := by
  unfold create_reading at h
  cases hbs : scalar_one_or_none (db.books.filter fun b => b.id == data.book_id) with
  | error e => rw [hbs] at h; cases h
  | ok o =>
    cases o with
    | none => rw [hbs] at h; cases h
    | some book =>
      rw [hbs] at h
      cases hrs : scalar_one_or_none (db.readings.filter fun r =>
          r.user_id == uid && r.book_id == data.book_id) with
      | error e => rw [hrs] at h; cases h
      | ok o2 =>
        cases o2 with
        | some x => rw [hrs] at h; cases h
        | none =>
          rw [hrs] at h
          exact ⟨book, rfl, rfl, (Except.ok.inj h).symm⟩

/-- Inversion of a successful reading update: the row lookup succeeded, the
guards passed and the result is the committed patch. -/
theorem update_reading_ok_inv {rid : Int} {u : ReadingUpdate} {uid : Int} {now : Nat}
    {db : ReadingDB} {p : ReadingDB × Reading}
    (h : update_reading rid u uid now db = .ok p) :
    ∃ r0,
      scalar_one_or_none (db.readings.filter fun r => r.id == rid) = .ok (some r0) ∧
      r0.user_id = uid ∧ u.status ≠ some none ∧
      p = update_reading_commit rid u uid now db r0 := by
  unfold update_reading at h
  cases hrs : scalar_one_or_none (db.readings.filter fun r => r.id == rid) with
  | error e => rw [hrs] at h; cases h
  | ok o =>
    cases o with
    | none => rw [hrs] at h; cases h
    | some r0 =>
      rw [hrs] at h
      by_cases hu : r0.user_id ≠ uid
      · simp [hu] at h
      · by_cases hst : u.status = some none
        · simp [hu, hst] at h
        · simp [hu, hst] at h
          exact ⟨r0, rfl, by omega, hst, h.symm⟩

/-- Inversion of a successful reading deletion: the row lookup succeeded,
the owner guard passed and the result is the committed removal. -/
theorem delete_reading_ok_inv {rid uid : Int} {db db2 : ReadingDB}
    (h : delete_reading rid uid db = .ok db2) :
    ∃ r0,
      scalar_one_or_none (db.readings.filter fun r => r.id == rid) = .ok (some r0) ∧
      r0.user_id = uid ∧
      db2 = delete_reading_commit rid db r0.book_id := by
  unfold delete_reading at h
  cases hrs : scalar_one_or_none (db.readings.filter fun r => r.id == rid) with
  | error e => rw [hrs] at h; cases h
  | ok o =>
    cases o with
    | none => rw [hrs] at h; cases h
    | some r0 =>
      rw [hrs] at h
      by_cases hu : r0.user_id ≠ uid
      · simp [hu] at h
      · simp [hu] at h
        exact ⟨r0, rfl, by omega, h.symm⟩

/-- The rated-readings aggregate reads only the readings table. -/
theorem ratedCount_eq_of_readings {dbA dbB : ReadingDB} (bid : Int)
    (h : dbA.readings = dbB.readings) :
    ratedCount dbA bid = ratedCount dbB bid ∧ ratingAvg dbA bid = ratingAvg dbB bid := by
  unfold ratingAvg ratingSum ratedCount ratedReadings
  rw [h]
  exact ⟨rfl, rfl⟩

/-- After a successful recompute over a state with at least one rated
reading, the recomputed state itself satisfies the aggregate invariant. -/
theorem update_book_rating_establishes (db1 : ReadingDB) (bid : Int)
    (hnd : (db1.books.map Book.id).Nodup) (h0 : 0 < ratedCount db1 bid) :
    aggregates_correct (update_book_rating db1 bid) bid := by
  intro b hb hbid
  have hfr := (update_book_rating_frame db1 bid).1
  have hc := update_book_rating_correct db1 bid hnd h0 b hb hbid
  have heq := ratedCount_eq_of_readings bid hfr
  rw [heq.1, heq.2]
  exact hc

/-- The patch application and status handler never touch the book id. -/
theorem updated_reading_book_id (r0 : Reading) (u : ReadingUpdate) (now : Nat) :
    (updated_reading r0 u now).book_id = r0.book_id := by
  obtain ⟨us, ur, urev, upub, upp, utp⟩ := u
  unfold updated_reading apply_reading_update handle_status_changes
  rcases us with _ | o
  · rfl
  · rcases o with _ | s
    · rfl
    · cases s <;> dsimp only <;> split_ifs <;> rfl

/-! Theorems for claim C1. -/

/-- Counterexample to C1: deleting the last rated reading of a book leaves
the book row's aggregates stale. Starting from a consistent state whose
single book row records one rating, deleting the only (rated) reading
succeeds, after which the rated-reading count is 0 but the book row still
reports `total_ratings = 1`, so the claimed invariant fails in the
post-delete state. -/
theorem delete_last_rated_reading_stale :
    ((delete_reading 1 1
        ⟨[⟨1, "Dune", "Frank Herbert", some 100, 5, 1⟩],
         [⟨1, 1, 1, .finished, some 5, none, some true, some 0, some 100, some 3,
           some 4, 4⟩], []⟩).map
      fun d => (d.books.map Book.total_ratings, ratedCount d 1)) = .ok ([1], 0) := rfl

/-- C1 amended: for the three reading operations, whenever the operation
triggers the rating recompute of a book (delete always, create when a
truthy rating is supplied, update when the patch carries a non-null
rating) and at least one non-null-rated reading of that book remains in
the post-state, every row of that book carries `total_ratings` equal to
the rated-reading count and `average_rating` equal to their average
rounded half-to-even to two decimals; when no rated reading remains the
book rows are left exactly as they were (stale values survive), and an
operation that does not trigger the recompute, including an update that
clears the rating to null, leaves every book row unchanged. Book ids are
assumed duplicate-free, as the schema's primary key guarantees. -/
theorem apply_reading_op_aggregates (op : ReadingOp) (db db2 : ReadingDB)
    (hnd : (db.books.map Book.id).Nodup)
    (h : apply_reading_op op db = .ok db2) :
    match recompute_target op db with
    | none => db2.books = db.books
    | some bid =>
        (0 < ratedCount db2 bid → aggregates_correct db2 bid) ∧
        (ratedCount db2 bid = 0 → db2.books = db.books) := by
  have main : ∀ db1 : ReadingDB, db1.books = db.books → ∀ bid,
      db2 = update_book_rating db1 bid →
      (0 < ratedCount db2 bid → aggregates_correct db2 bid) ∧
      (ratedCount db2 bid = 0 → db2.books = db.books) := by
    intro db1 hbooks bid hdb2
    have hfr := (update_book_rating_frame db1 bid).1
    have heq := ratedCount_eq_of_readings bid hfr
    constructor
    · intro h0
      rw [hdb2] at h0 ⊢
      rw [heq.1] at h0
      exact update_book_rating_establishes db1 bid (hbooks ▸ hnd) h0
    · intro h0
      rw [hdb2] at h0 ⊢
      rw [heq.1] at h0
      rw [update_book_rating_of_count_zero db1 bid h0, hbooks]
  cases op with
  | create data uid now =>
    cases hc : create_reading data uid now db with
    | error e => rw [apply_reading_op, hc] at h; cases h
    | ok p =>
      rw [apply_reading_op, hc] at h
      have hp : db2 = p.1 := (Except.ok.inj h).symm
      rcases create_reading_ok_inv hc with ⟨book, hbs, _, hcommit⟩
      have hbid : book.id = data.book_id := scalar_filter_book_id hbs
      simp only [recompute_target]
      by_cases hrat : pyTruthyInt data.rating = true
      · rw [if_pos hrat]
        show (0 < ratedCount db2 data.book_id → aggregates_correct db2 data.book_id) ∧
          (ratedCount db2 data.book_id = 0 → db2.books = db.books)
        have hfst : p.1 = update_book_rating
            { db with
              readings := db.readings ++ [new_reading data book uid now db]
              activities := db.activities ++
                create_reading_activities (new_reading data book uid now db) uid }
            book.id := by
          rw [hcommit]
          dsimp only [create_reading_commit]
          rw [if_pos hrat]
        refine main { db with
            readings := db.readings ++ [new_reading data book uid now db]
            activities := db.activities ++
              create_reading_activities (new_reading data book uid now db) uid }
          rfl data.book_id ?_
        rw [hp, hfst, hbid]
      · rw [if_neg hrat]
        show db2.books = db.books
        have hfst : p.1 = { db with
            readings := db.readings ++ [new_reading data book uid now db]
            activities := db.activities ++
              create_reading_activities (new_reading data book uid now db) uid } := by
          rw [hcommit]
          dsimp only [create_reading_commit]
          rw [if_neg hrat]
        rw [hp, hfst]
  | update rid u uid now =>
    cases hc : update_reading rid u uid now db with
    | error e => rw [apply_reading_op, hc] at h; cases h
    | ok p =>
      rw [apply_reading_op, hc] at h
      have hp : db2 = p.1 := (Except.ok.inj h).symm
      rcases update_reading_ok_inv hc with ⟨r0, hrs, _, _, hcommit⟩
      have hfind : db.readings.find? (fun r => r.id == rid) = some r0 :=
        find?_of_filter_singleton (scalar_ok_some hrs)
      simp only [recompute_target]
      cases hu : u.rating with
      | none =>
        show db2.books = db.books
        have hfst : p.1 = { db with
            readings := db.readings.map fun r =>
              if r.id == rid then updated_reading r0 u now else r
            activities := db.activities ++
              create_update_activities (updated_reading r0 u now) uid r0.status
                r0.rating r0.review } := by
          rw [hcommit]
          dsimp only [update_reading_commit]
          rw [hu]
        rw [hp, hfst]
      | some o =>
        cases o with
        | none =>
          show db2.books = db.books
          have hfst : p.1 = { db with
              readings := db.readings.map fun r =>
                if r.id == rid then updated_reading r0 u now else r
              activities := db.activities ++
                create_update_activities (updated_reading r0 u now) uid r0.status
                  r0.rating r0.review } := by
            rw [hcommit]
            dsimp only [update_reading_commit]
            rw [hu]
          rw [hp, hfst]
        | some v =>
          rw [hfind]
          show (0 < ratedCount db2 r0.book_id → aggregates_correct db2 r0.book_id) ∧
            (ratedCount db2 r0.book_id = 0 → db2.books = db.books)
          have hfst : p.1 = update_book_rating
              { db with
                readings := db.readings.map fun r =>
                  if r.id == rid then updated_reading r0 u now else r
                activities := db.activities ++
                  create_update_activities (updated_reading r0 u now) uid r0.status
                    r0.rating r0.review }
              r0.book_id := by
            rw [hcommit]
            dsimp only [update_reading_commit]
            rw [hu, updated_reading_book_id r0 u now]
          refine main { db with
              readings := db.readings.map fun r =>
                if r.id == rid then updated_reading r0 u now else r
              activities := db.activities ++
                create_update_activities (updated_reading r0 u now) uid r0.status
                  r0.rating r0.review }
            rfl r0.book_id ?_
          rw [hp, hfst]
  | delete rid uid =>
    cases hc : delete_reading rid uid db with
    | error e => rw [apply_reading_op, hc] at h; cases h
    | ok d =>
      rw [apply_reading_op, hc] at h
      have hp : db2 = d := (Except.ok.inj h).symm
      rcases delete_reading_ok_inv hc with ⟨r0, hrs, _, hcommit⟩
      have hfind : db.readings.find? (fun r => r.id == rid) = some r0 :=
        find?_of_filter_singleton (scalar_ok_some hrs)
      simp only [recompute_target]
      rw [hfind]
      show (0 < ratedCount db2 r0.book_id → aggregates_correct db2 r0.book_id) ∧
        (ratedCount db2 r0.book_id = 0 → db2.books = db.books)
      have hfst : d = update_book_rating
          { db with readings := db.readings.filter fun r => !(r.id == rid) }
          r0.book_id := by
        rw [hcommit]
        dsimp only [delete_reading_commit]
      refine main { db with readings := db.readings.filter fun r => !(r.id == rid) }
        rfl r0.book_id ?_
      rw [hp, hfst]

/-- Witness for the amended C1, at the counterexample's own scenario: the
delete triggers the recompute, zero rated readings remain, and the book
rows come out unchanged. -/
theorem apply_reading_op_aggregates_witness :
    (⟨[⟨1, "Dune", "Frank Herbert", some 100, 5, 1⟩], [], []⟩ : ReadingDB).books =
      (⟨[⟨1, "Dune", "Frank Herbert", some 100, 5, 1⟩],
        [⟨1, 1, 1, .finished, some 5, none, some true, some 0, some 100, some 3,
          some 4, 4⟩], []⟩ : ReadingDB).books :=
  (apply_reading_op_aggregates (.delete 1 1)
    ⟨[⟨1, "Dune", "Frank Herbert", some 100, 5, 1⟩],
     [⟨1, 1, 1, .finished, some 5, none, some true, some 0, some 100, some 3,
       some 4, 4⟩], []⟩
    ⟨[⟨1, "Dune", "Frank Herbert", some 100, 5, 1⟩], [], []⟩
    (by decide) rfl).2 rfl

/-! Field-level lemmas about the patch application and the status handler,
shared by the timestamp claims. -/

/-- The patch application never touches the timestamp columns. -/
theorem apply_reading_update_timestamps (r0 : Reading) (u : ReadingUpdate) :
    (apply_reading_update r0 u).started_at = r0.started_at ∧
    (apply_reading_update r0 u).finished_at = r0.finished_at := ⟨rfl, rfl⟩

/-- A patch carrying a status value stores exactly that status. -/
theorem apply_reading_update_status (r0 : Reading) (u : ReadingUpdate) (s : ReadingStatus)
    (h : u.status = some (some s)) : (apply_reading_update r0 u).status = s := by
  unfold apply_reading_update
  rw [show (match u.status with | some (some s) => s | _ => r0.status) = s by rw [h]]

/-- A patch without a status field keeps the stored status. -/
theorem apply_reading_update_status_unset (r0 : Reading) (u : ReadingUpdate)
    (h : u.status = none) : (apply_reading_update r0 u).status = r0.status := by
  unfold apply_reading_update
  rw [show (match u.status with | some (some s) => s | _ => r0.status) = r0.status
    by rw [h]]

/-- A patch without a progress field keeps the stored progress. -/
theorem apply_reading_update_progress_unset (r0 : Reading) (u : ReadingUpdate)
    (h : u.progress_pages = none) :
    (apply_reading_update r0 u).progress_pages = r0.progress_pages := by
  unfold apply_reading_update
  rw [show (match u.progress_pages with | some v => v | none => r0.progress_pages) =
    r0.progress_pages by rw [h]]

/-- Without a status in the patch, the produced row keeps the stored
status, timestamps and (unpatched) progress. -/
theorem updated_reading_status_unset (r0 : Reading) (u : ReadingUpdate) (now : Nat)
    (h : u.status = none) :
    (updated_reading r0 u now).status = r0.status ∧
    (updated_reading r0 u now).started_at = r0.started_at ∧
    (updated_reading r0 u now).finished_at = r0.finished_at ∧
    (u.progress_pages = none →
      (updated_reading r0 u now).progress_pages = r0.progress_pages) := by
  have hm : (updated_reading r0 u now) =
      { apply_reading_update r0 u with updated_at := now } := by
    unfold updated_reading
    rw [h]
  rw [hm]
  refine ⟨apply_reading_update_status_unset r0 u h, rfl, rfl, fun hp => ?_⟩
  exact apply_reading_update_progress_unset r0 u hp

/-- With a status in the patch, the produced row is the handler's output
over the patched row, stamped with the update time. -/
theorem updated_reading_status_set (r0 : Reading) (u : ReadingUpdate) (now : Nat)
    (s : ReadingStatus) (h : u.status = some (some s)) :
    updated_reading r0 u now =
      { handle_status_changes (apply_reading_update r0 u) s now with updated_at := now } := by
  unfold updated_reading
  rw [h]

/-- Effect of the status handler on a finished status: the finish
timestamp is always refreshed, the start timestamp is filled only when
null, and the progress snaps to a truthy page total. -/
theorem handle_status_changes_finished (r : Reading) (now : Nat) :
    (handle_status_changes r .finished now).status = r.status ∧
    (handle_status_changes r .finished now).finished_at = some now ∧
    (handle_status_changes r .finished now).started_at =
      (if r.started_at = none then some now else r.started_at) ∧
    (handle_status_changes r .finished now).total_pages = r.total_pages ∧
    (pyTruthyInt r.total_pages = true →
      (handle_status_changes r .finished now).progress_pages = r.total_pages) := by
  unfold handle_status_changes
  rw [if_neg (by simp : ¬(ReadingStatus.finished = ReadingStatus.currently_reading ∧
    r.started_at = none))]
  rw [if_pos rfl]
  by_cases hst : r.started_at = none <;>
    by_cases htp : pyTruthyInt r.total_pages = true <;>
      simp [hst, htp]

/-- Effect of the status handler on a currently-reading status: only a
null start timestamp is filled; the finish timestamp and progress are
untouched. -/
theorem handle_status_changes_cr (r : Reading) (now : Nat) :
    (handle_status_changes r .currently_reading now).status = r.status ∧
    (handle_status_changes r .currently_reading now).finished_at = r.finished_at ∧
    (handle_status_changes r .currently_reading now).progress_pages = r.progress_pages ∧
    (handle_status_changes r .currently_reading now).started_at =
      (if r.started_at = none then some now else r.started_at) := by
  unfold handle_status_changes
  by_cases hst : r.started_at = none
  · rw [if_pos ⟨rfl, hst⟩]
    simp [hst]
  · rw [if_neg (by simp [hst]), if_neg (by simp)]
    simp [hst]

/-- The want-to-read status triggers no side effect in the handler. -/
theorem handle_status_changes_wtr (r : Reading) (now : Nat) :
    handle_status_changes r .want_to_read now = r := by
  unfold handle_status_changes
  rw [if_neg (by simp), if_neg (by simp)]

/-! Theorems for claim C4. -/

/-- C4: a reading produced by create with finished status carries a finish
timestamp, and a create into currently-reading or finished stamps the
start timestamp; a reading produced by update keeps the finished-implies-
finished-at invariant of its pre-state row, and an update whose patch
moves the row into currently-reading or finished stamps the start
timestamp when it was previously null. -/
theorem reading_timestamp_invariants :
    (∀ (data : ReadingCreate) (uid : Int) (now : Nat) (db db2 : ReadingDB) (r : Reading),
      create_reading data uid now db = .ok (db2, r) →
      (r.status = .finished → r.finished_at.isSome) ∧
      (r.status = .currently_reading ∨ r.status = .finished →
        r.started_at = some now)) ∧
    (∀ (rid : Int) (u : ReadingUpdate) (uid : Int) (now : Nat) (db db2 : ReadingDB)
        (r r0 : Reading),
      update_reading rid u uid now db = .ok (db2, r) →
      scalar_one_or_none (db.readings.filter fun x => x.id == rid) = .ok (some r0) →
      ((r0.status = .finished → r0.finished_at.isSome) →
        r.status = .finished → r.finished_at.isSome) ∧
      (r0.started_at = none →
        ∀ s, u.status = some (some s) →
        s = .currently_reading ∨ s = .finished → r.started_at = some now)) := by
  constructor
  · intro data uid now db db2 r h
    rcases create_reading_ok_inv h with ⟨book, _, _, hcommit⟩
    have hr : r = new_reading data book uid now db := congrArg Prod.snd hcommit
    have hstat : r.status = data.status := by rw [hr]; rfl
    constructor
    · intro hfin
      rw [hstat] at hfin
      rw [hr]
      unfold new_reading
      dsimp only
      rw [if_pos hfin]
      rfl
    · intro hcf
      rw [hstat] at hcf
      rw [hr]
      unfold new_reading
      dsimp only
      rcases hcf with hc | hf
      · rw [if_pos hc]
      · rw [hf]
        rfl
  · intro rid u uid now db db2 r r0 h hr0
    rcases update_reading_ok_inv h with ⟨r0x, hrs, _, hne, hcommit⟩
    have hr0x : r0x = r0 := by
      rw [hr0] at hrs
      exact (Option.some.inj (Except.ok.inj hrs)).symm
    rw [hr0x] at hcommit
    have hr : r = updated_reading r0 u now := congrArg Prod.snd hcommit
    cases hu : u.status with
    | none =>
      have hfields := updated_reading_status_unset r0 u now hu
      constructor
      · intro hpre hfin
        rw [hr] at hfin ⊢
        rw [hfields.2.2.1]
        exact hpre (by rw [← hfields.1]; exact hfin)
      · intro _ s hus
        exact Option.noConfusion hus
    | some o =>
      cases o with
      | none => exact absurd hu hne
      | some s =>
        have hset := updated_reading_status_set r0 u now s hu
        have hap := apply_reading_update_timestamps r0 u
        cases s with
        | want_to_read =>
          constructor
          · intro _ hfin
            rw [hr, hset] at hfin
            rw [handle_status_changes_wtr] at hfin
            have : (apply_reading_update r0 u).status = .want_to_read :=
              apply_reading_update_status r0 u _ hu
            simp only at hfin
            rw [this] at hfin
            exact absurd hfin (by simp)
          · intro _ s2 hus hs2
            have : s2 = ReadingStatus.want_to_read :=
              (Option.some.inj (Option.some.inj hus)).symm
            rcases hs2 with h2 | h2 <;> rw [this] at h2 <;> exact absurd h2 (by simp)
        | currently_reading =>
          have hh := handle_status_changes_cr (apply_reading_update r0 u) now
          constructor
          · intro _ hfin
            rw [hr, hset] at hfin
            simp only at hfin
            rw [hh.1, apply_reading_update_status r0 u _ hu] at hfin
            exact absurd hfin (by simp)
          · intro hnull s2 hus _
            rw [hr, hset]
            show (handle_status_changes (apply_reading_update r0 u)
              ReadingStatus.currently_reading now).started_at = some now
            rw [hh.2.2.2, hap.1, if_pos hnull]
        | finished =>
          have hh := handle_status_changes_finished (apply_reading_update r0 u) now
          constructor
          · intro _ _
            rw [hr, hset]
            show (handle_status_changes (apply_reading_update r0 u)
              ReadingStatus.finished now).finished_at.isSome
            rw [hh.2.1]
            rfl
          · intro hnull s2 hus _
            rw [hr, hset]
            show (handle_status_changes (apply_reading_update r0 u)
              ReadingStatus.finished now).started_at = some now
            rw [hh.2.2.1, hap.1, if_pos hnull]

/-- Witness for C4: a finished create stamps both timestamps, and a patch
moving a never-started row into currently-reading stamps the start
timestamp. -/
theorem reading_timestamp_invariants_witness :
    ((⟨1, 7, 1, .finished, none, none, some true, some 0, some 100, some 9, some 9,
        9⟩ : Reading).finished_at.isSome) = true ∧
    (⟨1, 7, 1, .finished, none, none, some true, some 0, some 100, some 9, some 9,
        9⟩ : Reading).started_at = some 9 ∧
    (⟨1, 1, 1, .currently_reading, none, none, some true, some 0, some 100, some 20,
        none, 20⟩ : Reading).started_at = some 20 := by
  have h1 := reading_timestamp_invariants.1 ⟨1, .finished, none, none, some true, some 0, none⟩
    7 9 ⟨[⟨1, "Dune", "Frank Herbert", some 100, 5, 1⟩], [], []⟩
    ⟨[⟨1, "Dune", "Frank Herbert", some 100, 5, 1⟩],
     [⟨1, 7, 1, .finished, none, none, some true, some 0, some 100, some 9, some 9, 9⟩],
     [⟨7, "finished_book"⟩]⟩
    ⟨1, 7, 1, .finished, none, none, some true, some 0, some 100, some 9, some 9, 9⟩ rfl
  have h2 := reading_timestamp_invariants.2 1
    ⟨some (some .currently_reading), none, none, none, none, none⟩ 1 20
    ⟨[⟨1, "Dune", "Frank Herbert", some 100, 5, 1⟩],
     [⟨1, 1, 1, .want_to_read, none, none, some true, some 0, some 100, none, none, 4⟩],
     []⟩
    ⟨[⟨1, "Dune", "Frank Herbert", some 100, 5, 1⟩],
     [⟨1, 1, 1, .currently_reading, none, none, some true, some 0, some 100, some 20,
       none, 20⟩], []⟩
    ⟨1, 1, 1, .currently_reading, none, none, some true, some 0, some 100, some 20,
      none, 20⟩
    ⟨1, 1, 1, .want_to_read, none, none, some true, some 0, some 100, none, none, 4⟩
    rfl rfl
  exact ⟨by rw [h1.1 rfl], h1.2 (Or.inr rfl),
    h2.2 rfl ReadingStatus.currently_reading rfl (Or.inl rfl)⟩

/-! Theorems for claim C5. -/

/-- Counterexample to C5: the status handler runs whenever the patch
carries a status, even one equal to the stored status. The stored row is
finished with finish timestamp 10 and progress 50 of 100; patching it with
status finished at time 20 rewrites the finish timestamp to 20 and snaps
the progress to 100, so the claimed frame condition fails. -/
theorem refinish_patch_changes_timestamps :
    ((update_reading 1 ⟨some (some .finished), none, none, none, none, none⟩ 1 20
        ⟨[⟨1, "Dune", "Frank Herbert", some 100, 5, 1⟩],
         [⟨1, 1, 1, .finished, none, none, some true, some 50, some 100, some 5,
           some 10, 10⟩], []⟩).map
      fun p => (p.2.status, p.2.finished_at, p.2.progress_pages)) =
      .ok (.finished, some 20, some 100) ∧
    ¬ ((update_reading 1 ⟨some (some .finished), none, none, none, none, none⟩ 1 20
        ⟨[⟨1, "Dune", "Frank Herbert", some 100, 5, 1⟩],
         [⟨1, 1, 1, .finished, none, none, some true, some 50, some 100, some 5,
           some 10, 10⟩], []⟩).map
      fun p => (p.2.status, p.2.finished_at, p.2.progress_pages)) =
      .ok (.finished, some 10, some 50) := by
  constructor
  · rfl
  · intro hcontra
    rw [show ((update_reading 1 ⟨some (some .finished), none, none, none, none, none⟩ 1 20
        ⟨[⟨1, "Dune", "Frank Herbert", some 100, 5, 1⟩],
         [⟨1, 1, 1, .finished, none, none, some true, some 50, some 100, some 5,
           some 10, 10⟩], []⟩).map
      fun p => (p.2.status, p.2.finished_at, p.2.progress_pages)) =
      .ok (.finished, some 20, some 100) from rfl] at hcontra
    simp at hcontra

/-- C5 amended: the timestamp and progress side effects run whenever the
patch carries a status value, regardless of the stored status: a finished
patch always refreshes the finish timestamp to the update time and snaps
progress to a truthy page total, even when the row was already finished;
the start timestamp is filled only when previously null; and an update
whose patch omits the status field leaves the start and finish timestamps,
and unpatched progress, unchanged. -/
theorem update_status_side_effects (rid : Int) (u : ReadingUpdate) (uid : Int)
    (now : Nat) (db db2 : ReadingDB) (r r0 : Reading)
    (h : update_reading rid u uid now db = .ok (db2, r))
    (hr0 : scalar_one_or_none (db.readings.filter fun x => x.id == rid) =
      .ok (some r0)) :
    (u.status = none →
      r.started_at = r0.started_at ∧ r.finished_at = r0.finished_at ∧
      (u.progress_pages = none → r.progress_pages = r0.progress_pages)) ∧
    (u.status = some (some .finished) →
      r.finished_at = some now ∧
      (pyTruthyInt r.total_pages = true → r.progress_pages = r.total_pages) ∧
      (r0.started_at ≠ none → r.started_at = r0.started_at)) ∧
    (u.status = some (some .currently_reading) →
      r.finished_at = r0.finished_at ∧
      (r0.started_at ≠ none → r.started_at = r0.started_at)) := by
  rcases update_reading_ok_inv h with ⟨r0x, hrs, _, _, hcommit⟩
  have hr0x : r0x = r0 := by
    rw [hr0] at hrs
    exact (Option.some.inj (Except.ok.inj hrs)).symm
  rw [hr0x] at hcommit
  have hr : r = updated_reading r0 u now := congrArg Prod.snd hcommit
  have hap := apply_reading_update_timestamps r0 u
  refine ⟨fun hu => ?_, fun hu => ?_, fun hu => ?_⟩
  · have hfields := updated_reading_status_unset r0 u now hu
    rw [hr]
    exact ⟨hfields.2.1, hfields.2.2.1, hfields.2.2.2⟩
  · have hset := updated_reading_status_set r0 u now _ hu
    have hh := handle_status_changes_finished (apply_reading_update r0 u) now
    rw [hr, hset]
    refine ⟨hh.2.1, fun htp => ?_, fun hsome => ?_⟩
    · show (handle_status_changes (apply_reading_update r0 u)
        ReadingStatus.finished now).progress_pages =
        (handle_status_changes (apply_reading_update r0 u)
        ReadingStatus.finished now).total_pages
      rw [hh.2.2.2.1]
      refine hh.2.2.2.2 ?_
      rw [← hh.2.2.2.1]
      exact htp
    · show (handle_status_changes (apply_reading_update r0 u)
        ReadingStatus.finished now).started_at = r0.started_at
      rw [hh.2.2.1, hap.1, if_neg hsome]
  · have hset := updated_reading_status_set r0 u now _ hu
    have hh := handle_status_changes_cr (apply_reading_update r0 u) now
    rw [hr, hset]
    refine ⟨?_, fun hsome => ?_⟩
    · show (handle_status_changes (apply_reading_update r0 u)
        ReadingStatus.currently_reading now).finished_at = r0.finished_at
      rw [hh.2.1, hap.2]
    · show (handle_status_changes (apply_reading_update r0 u)
        ReadingStatus.currently_reading now).started_at = r0.started_at
      rw [hh.2.2.2, hap.1, if_neg hsome]

/-- Witness for the amended C5 at the counterexample's own scenario: the
same-status finished patch yields a refreshed finish timestamp, snapped
progress and an untouched start timestamp. -/
theorem update_status_side_effects_witness :
    (some 20 : Option Nat) = some 20 ∧ (some 100 : Option Int) = some 100 ∧
    (some 5 : Option Nat) = some 5 := by
  have h := (update_status_side_effects 1
    ⟨some (some .finished), none, none, none, none, none⟩ 1 20
    ⟨[⟨1, "Dune", "Frank Herbert", some 100, 5, 1⟩],
     [⟨1, 1, 1, .finished, none, none, some true, some 50, some 100, some 5,
       some 10, 10⟩], []⟩
    ⟨[⟨1, "Dune", "Frank Herbert", some 100, 5, 1⟩],
     [⟨1, 1, 1, .finished, none, none, some true, some 100, some 100, some 5,
       some 20, 20⟩], []⟩
    ⟨1, 1, 1, .finished, none, none, some true, some 100, some 100, some 5, some 20, 20⟩
    ⟨1, 1, 1, .finished, none, none, some true, some 50, some 100, some 5, some 10, 10⟩
    rfl rfl).2.1 rfl
  exact ⟨h.1, h.2.1 rfl, h.2.2 (by simp)⟩

/-! Embedding of the follow graph operations of
`backend/services/user_service.py`. Profile assembly around each listed
user (bio, counters) is orthogonal to the follow edges and is abstracted to
the user row itself; a missing related user row makes the real listing
raise, kept here as an error result. -/

/-- A row of the `users` table, restricted to identity. -/
structure SocialUser where
  id : Int
  name : String
deriving DecidableEq, Repr

/-- A row of the `user_follows` table: a directed edge. -/
structure UserFollow where
  follower_id : Int
  following_id : Int
deriving DecidableEq, Repr

/-- Database state visible to the follow operations. -/
structure SocialDB where
  users : List SocialUser
  follows : List UserFollow
  activities : List UserActivity
deriving DecidableEq, Repr

/-- Embedding of `UserService.follow_user`: self-follows are rejected, the
followee must exist, duplicate edges are rejected, and a success inserts
the edge and a followed-user activity. -/
def follow_user (follower_id following_id : Int) (db : SocialDB) :
    Except ServiceError (SocialDB × UserFollow) :=
  if follower_id = following_id then .error (.validation "Cannot follow yourself")
  else
    match scalar_one_or_none (db.users.filter fun u => u.id == following_id) with
    | .error _ => .error (.database "Failed to fetch user")
    | .ok none => .error (.validation "User not found")
    | .ok (some _) =>
      match scalar_one_or_none (db.follows.filter fun f =>
          f.follower_id == follower_id && f.following_id == following_id) with
      | .error _ => .error (.database "Failed to follow user")
      | .ok (some _) => .error (.validation "Already following this user")
      | .ok none =>
        let new_follow : UserFollow := ⟨follower_id, following_id⟩
        .ok ({ db with
          follows := db.follows ++ [new_follow]
          activities := db.activities ++ [⟨follower_id, "followed_user"⟩] }, new_follow)

/-- The join of a list of user ids against the users table performed while
building the profile lists; a missing row is the raised lookup failure of
the real listing. -/
def join_users (db : SocialDB) (msg : String) (ids : List Int) :
    Except ServiceError (List SocialUser) :=
  match ids with
  | [] => .ok []
  | i :: rest =>
    match db.users.find? fun u => u.id == i with
    | none => .error (.database msg)
    | some u =>
      match join_users db msg rest with
      | .error e => .error e
      | .ok l => .ok (u :: l)

/-- Embedding of `UserService.get_following`: the users behind the edges
whose follower is the given user. -/
def get_following (user_id : Int) (db : SocialDB) :
    Except ServiceError (List SocialUser) :=
  join_users db "Failed to get following"
    ((db.follows.filter fun f => f.follower_id == user_id).map UserFollow.following_id)

/-- Embedding of `UserService.get_followers`: the users behind the edges
whose followee is the given user. -/
def get_followers (user_id : Int) (db : SocialDB) :
    Except ServiceError (List SocialUser) :=
  join_users db "Failed to get followers"
    ((db.follows.filter fun f => f.following_id == user_id).map UserFollow.follower_id)

/-- A successful join lists one user row per requested id, in order. -/
theorem join_users_ok (db : SocialDB) (msg : String) (ids : List Int)
    (h : ∀ i ∈ ids, ∃ u ∈ db.users, u.id = i) :
    ∃ l, join_users db msg ids = .ok l ∧ ∀ i ∈ ids, ∃ u ∈ l, u.id = i := by
  induction ids with
  | nil => exact ⟨[], rfl, by simp⟩
  | cons i rest ih =>
    rcases h i (List.mem_cons_self i rest) with ⟨u, hu, hui⟩
    have hfind : ∃ u0, db.users.find? (fun x => x.id == i) = some u0 := by
      have : (db.users.find? fun x => x.id == i).isSome := by
        rw [List.find?_isSome]
        exact ⟨u, hu, by simpa using hui⟩
      exact Option.isSome_iff_exists.mp this
    rcases hfind with ⟨u0, hu0⟩
    have hu0i : u0.id = i := by
      have := List.find?_some hu0
      simpa using this
    rcases ih (fun j hj => h j (List.mem_cons_of_mem i hj)) with ⟨l, hl, hlm⟩
    refine ⟨u0 :: l, ?_, ?_⟩
    · unfold join_users
      rw [hu0, hl]
    · intro j hj
      rcases List.mem_cons.mp hj with hj | hj
      · exact ⟨u0, List.mem_cons_self u0 l, by rw [hu0i, hj]⟩
      · rcases hlm j hj with ⟨w, hw, hwj⟩
        exact ⟨w, List.mem_cons_of_mem u0 hw, hwj⟩

/-! Theorems for claim C7. -/

/-- C7: a self-follow fails with a validation error; a duplicate follow of
an existing followee fails with a validation error; and after a successful
follow, provided both endpoints exist and every stored edge joins
existing users, the followee appears in the follower's following list and
the follower appears in the followee's followers list. -/
theorem follow_user_spec :
    (∀ (uid : Int) (db : SocialDB),
      follow_user uid uid db = .error (.validation "Cannot follow yourself")) ∧
    (∀ (f g : Int) (db : SocialDB) (u0 : SocialUser) (e0 : UserFollow),
      f ≠ g →
      scalar_one_or_none (db.users.filter fun u => u.id == g) = .ok (some u0) →
      scalar_one_or_none (db.follows.filter fun x =>
        x.follower_id == f && x.following_id == g) = .ok (some e0) →
      follow_user f g db = .error (.validation "Already following this user")) ∧
    (∀ (f g : Int) (db db2 : SocialDB) (e : UserFollow),
      follow_user f g db = .ok (db2, e) →
      (∃ uf ∈ db.users, uf.id = f) →
      (∀ x ∈ db.follows,
        (∃ u ∈ db.users, u.id = x.follower_id) ∧
        (∃ u ∈ db.users, u.id = x.following_id)) →
      (∃ l, get_following f db2 = .ok l ∧ ∃ u ∈ l, u.id = g) ∧
      (∃ l, get_followers g db2 = .ok l ∧ ∃ u ∈ l, u.id = f)) := by
  refine ⟨fun uid db => ?_, fun f g db u0 e0 hne hu he => ?_, fun f g db db2 e h hf hv => ?_⟩
  · unfold follow_user
    rw [if_pos rfl]
  · unfold follow_user
    rw [if_neg hne, hu, he]
  · have hinv : f ≠ g ∧ (∃ ug, scalar_one_or_none
        (db.users.filter fun u => u.id == g) = .ok (some ug)) ∧
        scalar_one_or_none (db.follows.filter fun x =>
          x.follower_id == f && x.following_id == g) = .ok none ∧
        db2 = { db with
          follows := db.follows ++ [⟨f, g⟩]
          activities := db.activities ++ [⟨f, "followed_user"⟩] } := by
      unfold follow_user at h
      by_cases hne : f = g
      · rw [if_pos hne] at h; cases h
      · rw [if_neg hne] at h
        cases hu : scalar_one_or_none (db.users.filter fun u => u.id == g) with
        | error e => rw [hu] at h; cases h
        | ok o =>
          cases o with
          | none => rw [hu] at h; cases h
          | some ug =>
            rw [hu] at h
            cases he : scalar_one_or_none (db.follows.filter fun x =>
                x.follower_id == f && x.following_id == g) with
            | error e => rw [he] at h; cases h
            | ok o2 =>
              cases o2 with
              | some x => rw [he] at h; cases h
              | none =>
                rw [he] at h
                refine ⟨hne, ⟨ug, rfl⟩, rfl, ?_⟩
                exact congrArg Prod.fst (Except.ok.inj h).symm
    rcases hinv with ⟨hne, ⟨ug, hu⟩, _, hdb2⟩
    have hgmem : ug ∈ db.users ∧ ug.id = g := by
      have hl := scalar_ok_some hu
      have : ug ∈ db.users.filter fun u => u.id == g := hl ▸ List.mem_singleton_self ug
      have hm := List.mem_filter.mp this
      exact ⟨hm.1, by simpa using hm.2⟩
    rcases hf with ⟨uf, hufmem, hufid⟩
    have husers : db2.users = db.users := by rw [hdb2]
    have hfollows : db2.follows = db.follows ++ [⟨f, g⟩] := by rw [hdb2]
    constructor
    · have hids : ∀ i ∈ ((db2.follows.filter fun x => x.follower_id == f).map
          UserFollow.following_id), ∃ u ∈ db2.users, u.id = i := by
        intro i hi
        rcases List.mem_map.mp hi with ⟨x, hx, hxi⟩
        have hxmem := (List.mem_filter.mp hx).1
        rw [hfollows] at hxmem
        rcases List.mem_append.mp hxmem with hx2 | hx2
        · rcases (hv x hx2).2 with ⟨u, hu2, hui⟩
          exact ⟨u, husers ▸ hu2, by rw [hui, hxi]⟩
        · have hxe : x = (⟨f, g⟩ : UserFollow) := by simpa using hx2
          refine ⟨ug, husers ▸ hgmem.1, ?_⟩
          rw [hgmem.2, ← hxi, hxe]
      rcases join_users_ok db2 "Failed to get following" _ hids with ⟨l, hl, hlm⟩
      refine ⟨l, hl, ?_⟩
      refine hlm g (List.mem_map.mpr ⟨⟨f, g⟩, ?_, rfl⟩)
      refine List.mem_filter.mpr ⟨?_, by simp⟩
      rw [hfollows]
      exact List.mem_append.mpr (Or.inr (List.mem_singleton_self _))
    · have hids : ∀ i ∈ ((db2.follows.filter fun x => x.following_id == g).map
          UserFollow.follower_id), ∃ u ∈ db2.users, u.id = i := by
        intro i hi
        rcases List.mem_map.mp hi with ⟨x, hx, hxi⟩
        have hxmem := (List.mem_filter.mp hx).1
        rw [hfollows] at hxmem
        rcases List.mem_append.mp hxmem with hx2 | hx2
        · rcases (hv x hx2).1 with ⟨u, hu2, hui⟩
          exact ⟨u, husers ▸ hu2, by rw [hui, hxi]⟩
        · have hxe : x = (⟨f, g⟩ : UserFollow) := by simpa using hx2
          refine ⟨uf, husers ▸ hufmem, ?_⟩
          rw [hufid, ← hxi, hxe]
      rcases join_users_ok db2 "Failed to get followers" _ hids with ⟨l, hl, hlm⟩
      refine ⟨l, hl, ?_⟩
      refine hlm f (List.mem_map.mpr ⟨⟨f, g⟩, ?_, rfl⟩)
      refine List.mem_filter.mpr ⟨?_, by simp⟩
      rw [hfollows]
      exact List.mem_append.mpr (Or.inr (List.mem_singleton_self _))

/-- Witness for C7: a concrete self-follow and a concrete duplicate follow
are rejected, and after user 1 follows user 2 the edge is visible from
both sides. -/
theorem follow_user_spec_witness :
    follow_user 1 1 ⟨[⟨1, "ada"⟩, ⟨2, "bob"⟩], [], []⟩ =
      .error (.validation "Cannot follow yourself") ∧
    follow_user 1 2 ⟨[⟨1, "ada"⟩, ⟨2, "bob"⟩], [⟨1, 2⟩], []⟩ =
      .error (.validation "Already following this user") ∧
    (∃ l, get_following 1 ⟨[⟨1, "ada"⟩, ⟨2, "bob"⟩], [⟨1, 2⟩],
        [⟨1, "followed_user"⟩]⟩ = .ok l ∧ ∃ u ∈ l, u.id = 2) ∧
    (∃ l, get_followers 2 ⟨[⟨1, "ada"⟩, ⟨2, "bob"⟩], [⟨1, 2⟩],
        [⟨1, "followed_user"⟩]⟩ = .ok l ∧ ∃ u ∈ l, u.id = 1) := by
  have h3 := follow_user_spec.2.2 1 2 ⟨[⟨1, "ada"⟩, ⟨2, "bob"⟩], [], []⟩
    ⟨[⟨1, "ada"⟩, ⟨2, "bob"⟩], [⟨1, 2⟩], [⟨1, "followed_user"⟩]⟩ ⟨1, 2⟩ rfl
    ⟨⟨1, "ada"⟩, by simp, rfl⟩ (by simp)
  exact ⟨follow_user_spec.1 1 ⟨[⟨1, "ada"⟩, ⟨2, "bob"⟩], [], []⟩,
    follow_user_spec.2.1 1 2 ⟨[⟨1, "ada"⟩, ⟨2, "bob"⟩], [⟨1, 2⟩], []⟩
      ⟨2, "bob"⟩ ⟨1, 2⟩ (by decide) rfl rfl,
    h3.1, h3.2⟩

end Bookshelf
